import Mathlib

/-!
Shallow embedding of `src/mcp_localline/auth.py` (token lifecycle manager and
credential store adapter).  Python strings are modelled by `String`; the
Python string operations used by the module (`strip`, `lower`, `split`,
substring test) are defined below over `List Char` so that every definition
evaluates inside the kernel.  The OS keychain is modelled by a two-slot
store holding raw values; the remote token endpoint is a parameter
(`none` models a raised transport/HTTP error).
-/

namespace LL

/-- Model of Python `str.strip()`: drop whitespace from both ends. -/
def trimChars (l : List Char) : List Char :=
  ((l.dropWhile Char.isWhitespace).reverse.dropWhile Char.isWhitespace).reverse

def pyStrip (s : String) : String := ⟨trimChars s.data⟩

/-- Model of Python `str.lower()` (ASCII case folding, all that occurs here). -/
def pyLower (s : String) : String := ⟨s.data.map Char.toLower⟩

/-- Split a character list on every occurrence of `c` (Python `s.split(c)`). -/
def splitOnChar (c : Char) : List Char → List (List Char)
  | [] => [[]]
  | a :: as =>
    if a = c then [] :: splitOnChar c as
    else
      match splitOnChar c as with
      | [] => [[a]]
      | seg :: segs => (a :: seg) :: segs

/-- The part of the list before the first `c` (Python `s.split(c, 1)[0]`). -/
def takeUntilChar (c : Char) : List Char → List Char
  | [] => []
  | a :: as => if a = c then [] else a :: takeUntilChar c as

/-- Split at the first occurrence of `c`, or `none` when `c` is absent
(Python `c in s` plus `s.split(c, 1)`). -/
def splitOnceChar (c : Char) : List Char → Option (List Char × List Char)
  | [] => none
  | a :: as =>
    if a = c then some ([], as)
    else
      match splitOnceChar c as with
      | none => none
      | some (x, y) => some (a :: x, y)

/-- `segLeads pat l` holds when `pat` is an initial segment of `l`. -/
def segLeads : List Char → List Char → Bool
  | [], _ => true
  | _ :: _, [] => false
  | a :: as, b :: bs => a = b && segLeads as bs

/-- `segInside pat l` models Python `pat in l` on strings. -/
def segInside (pat : List Char) : List Char → Bool
  | [] => segLeads pat []
  | b :: bs => segLeads pat (b :: bs) || segInside pat bs

/-- Model of Python `x or d` for a JSON field that is either absent (`none`)
or holds a string: absent and the empty string are falsy. -/
def pyOr (o : Option String) (d : String) : String :=
  match o with
  | none => d
  | some s => if s = "" then d else s

/-! Model of `http.cookies.SimpleCookie.load` for the header shapes this
module handles: semicolon-separated parts; the first matching `key=value`
pairs become morsels; a known attribute name is only legal after a morsel
and, when valueless, only if it is a flag; any other illegal part makes the
whole load yield nothing (CPython discards all parsed items on such input),
while an empty part merely stops the scan keeping what was parsed. -/

def cookieReservedNames : List String :=
  ["expires", "path", "comment", "domain", "max-age", "secure", "httponly", "version", "samesite"]

def cookieFlagNames : List String := ["secure", "httponly"]

/-- Insert or overwrite a cookie name, keeping first-seen order
(Python dict assignment semantics). -/
def upsertItem (n v : String) : List (String × String) → List (String × String)
  | [] => [(n, v)]
  | (m, w) :: rest => if m = n then (m, v) :: rest else (m, w) :: upsertItem n v rest

def cookieLoadAux : List (List Char) → Bool → List (String × String) → Option (List (String × String))
  | [], _, acc => some acc
  | part :: rest, seen, acc =>
    let part := trimChars part
    if part.isEmpty then some acc
    else
      match splitOnceChar '=' part with
      | some (n0, v0) =>
        let n : String := ⟨trimChars n0⟩
        let v : String := ⟨trimChars v0⟩
        if n = "" then some acc
        else if cookieReservedNames.contains (pyLower n) then
          if seen then cookieLoadAux rest seen acc else none
        else cookieLoadAux rest true (upsertItem n v acc)
      | none =>
        if cookieReservedNames.contains (pyLower ⟨part⟩) then
          if seen then
            if cookieFlagNames.contains (pyLower ⟨part⟩) then cookieLoadAux rest seen acc
            else none
          else none
        else none

/-- The ordered (name, value) morsels a `SimpleCookie` holds after loading
one raw header; empty when loading fails. -/
def cookieLoad (raw : String) : List (String × String) :=
  (cookieLoadAux (splitOnChar ';' raw.data) false []).getD []

/-! Embedding of the auth.py module itself. -/

def candidate_names : List String :=
  ["refresh", "refresh_token", "jwt_refresh_token", "ll_refresh", "token_refresh"]

/-- The name test of `_extract_refresh_from_set_cookie`:
`lname in candidate_names or "refresh" in lname`. -/
def nameMatches (lname : String) : Bool :=
  candidate_names.contains lname || segInside "refresh".data lname.data

/-- First morsel whose lowered name matches and whose value is truthy;
returns the stripped value. -/
def findRefreshItem : List (String × String) → Option String
  | [] => none
  | (n, v) :: rest =>
    if nameMatches (pyLower n) && v != "" then some (pyStrip v)
    else findRefreshItem rest

/-- `_extract_refresh_from_set_cookie`: strict cookie parse first, then the
fallback split of the part before the first semicolon. -/
def extract_refresh_from_set_cookie : List String → String
  | [] => ""
  | raw :: rest =>
    match findRefreshItem (cookieLoad raw) with
    | some v => v
    | none =>
      let head : String := ⟨trimChars (takeUntilChar ';' raw.data)⟩
      match splitOnceChar '=' head.data with
      | some (n0, v0) =>
        if nameMatches (pyLower (pyStrip ⟨n0⟩)) && pyStrip ⟨v0⟩ != "" then pyStrip ⟨v0⟩
        else extract_refresh_from_set_cookie rest
      | none => extract_refresh_from_set_cookie rest

/-- Names contributed by one header in `_cookie_names`: the strict parse's
keys when it produced any, else the fallback head split's single name. -/
def cookieNamesForHeader (raw : String) : List String :=
  let items := cookieLoad raw
  if items.isEmpty then
    let head : String := ⟨trimChars (takeUntilChar ';' raw.data)⟩
    match splitOnceChar '=' head.data with
    | some (n0, _) => [pyStrip ⟨n0⟩]
    | none => []
  else items.map (fun p => p.1)

/-- Stable de-duplication, keeping first occurrences (`_cookie_names` tail). -/
def dedupeAux : List String → List String → List String
  | [], _ => []
  | n :: rest, seen =>
    if seen.contains n then dedupeAux rest seen else n :: dedupeAux rest (n :: seen)

/-- `_cookie_names`. -/
def cookie_names (set_cookies : List String) : List String :=
  dedupeAux ((set_cookies.map cookieNamesForHeader).flatten) []

deriving instance DecidableEq for Except

structure TokenPair where
  access : String
  refresh : String
deriving DecidableEq

/-- The keychain, one service scope: raw stored bytes of the two slots,
`none` when the slot does not exist (`security` exits non-zero). -/
structure Store where
  refresh_token : Option String
  access_token : Option String
deriving DecidableEq

/-- `_keychain_get`: absent slot gives `none`; otherwise the stored bytes are
stripped and an empty result is reported as `none` (`value or None`). -/
def keychain_get (st : Store) (slot : String) : Option String :=
  let raw :=
    if slot = "refresh_token" then st.refresh_token
    else if slot = "access_token" then st.access_token
    else none
  match raw with
  | none => none
  | some v => if pyStrip v = "" then none else some (pyStrip v)

inductive AuthErr where
  | networkError
  | loginNoAccess
  | refreshNoAccess
  | missingCreds
  | storeWriteFailed
deriving DecidableEq

/-- `_keychain_set`: upsert a slot; `setFail` says which writes the
underlying `security` call rejects (`check=True` then raises). -/
def keychain_set (setFail : String → String → Bool) (st : Store) (slot value : String) :
    Except AuthErr Store :=
  if setFail slot value then .error .storeWriteFailed
  else
    .ok <|
      if slot = "refresh_token" then { st with refresh_token := some value }
      else if slot = "access_token" then { st with access_token := some value }
      else st

/-- Parsed body of a refresh response: JSON fields that are strings or
absent (`none` also stands for JSON null). -/
structure RefreshResp where
  access : Option String
  refresh : Option String
deriving DecidableEq

/-- Parsed body plus raw Set-Cookie headers of a login response. -/
structure LoginResp where
  access : Option String
  refresh : Option String
  set_cookies : List String
deriving DecidableEq

/-- `refresh_access`: the endpoint is a function of the refresh token sent in
the `backoffice_refresh_token` cookie; `none` models a raised transport or
HTTP error in `_post_json`. -/
def refresh_access (endpoint : String → Option RefreshResp) (refresh : String) :
    Except AuthErr TokenPair :=
  match endpoint refresh with
  | none => .error .networkError
  | some payload =>
    let access := pyStrip (pyOr payload.access "")
    let refresh_out := pyStrip (pyOr payload.refresh refresh)
    if access = "" then .error .refreshNoAccess
    else .ok ⟨access, refresh_out⟩

/-- Environment variables the module reads (absent modelled by `""`,
matching `os.getenv(name, "")`). -/
structure Env where
  LOCALLINE_API_TOKEN : String
  LOCALLINE_USERNAME : String
  LOCALLINE_PASSWORD : String
deriving DecidableEq

/-- The access token a login response yields:
`str(payload.get("access") or "").strip()`. -/
def login_access_value (payload : LoginResp) : String :=
  pyStrip (pyOr payload.access "")

/-- The refresh token a login response yields: the stripped body field, or
when that is blank the cookie extraction
(`str(payload.get("refresh") or "").strip() or _extract_refresh_from_set_cookie(...)`). -/
def login_refresh_value (payload : LoginResp) : String :=
  if pyStrip (pyOr payload.refresh "") = "" then
    extract_refresh_from_set_cookie payload.set_cookies
  else pyStrip (pyOr payload.refresh "")

/-- `bootstrap_from_env`: login with env credentials; body refresh falls
back to cookie extraction when blank. -/
def bootstrap_from_env (login : String → String → Option LoginResp) (env : Env) :
    Except AuthErr TokenPair :=
  let username := pyStrip env.LOCALLINE_USERNAME
  let password := pyStrip env.LOCALLINE_PASSWORD
  if username = "" ∨ password = "" then .error .missingCreds
  else
    match login username password with
    | none => .error .networkError
    | some payload =>
      let access := login_access_value payload
      let refresh := login_refresh_value payload
      if access = "" then .error .loginNoAccess
      else .ok ⟨access, refresh⟩

/-- Observable side effects of one `get_access_token` run, used to state
that a path performs no network call and no store access. -/
inductive Event where
  | store_read (slot : String)
  | store_write (slot : String) (value : String)
  | net_refresh (token : String)
deriving DecidableEq

structure GetTokenResult where
  token : Option String
  source : String
  store : Store
  events : List Event
deriving DecidableEq

/-- Lines 145-149 of auth.py: the fall-through to the cached access token
(`if access: return access, "keychain:access"` else the sentinel). -/
def get_access_token_fallback (st : Store) (ev : List Event) : GetTokenResult :=
  let ev := ev ++ [Event.store_read "access_token"]
  match keychain_get st "access_token" with
  | some access =>
    if access = "" then ⟨none, "missing_refresh_token", st, ev⟩
    else ⟨some access, "keychain:access", st, ev⟩
  | none => ⟨none, "missing_refresh_token", st, ev⟩

/-- `get_access_token`: env override, else refresh from the stored refresh
token (any failure inside the `try`, store writes included, is swallowed and
partial store mutations are kept), else the cached access token. -/
def get_access_token (endpoint : String → Option RefreshResp)
    (setFail : String → String → Bool) (env : Env) (st : Store) : GetTokenResult :=
  let direct := pyStrip env.LOCALLINE_API_TOKEN
  if direct ≠ "" then ⟨some direct, "env:LOCALLINE_API_TOKEN", st, []⟩
  else
    let ev0 := [Event.store_read "refresh_token"]
    match keychain_get st "refresh_token" with
    | some refresh =>
      if refresh = "" then get_access_token_fallback st ev0
      else
        let ev1 := ev0 ++ [Event.net_refresh refresh]
        match refresh_access endpoint refresh with
        | .error _ => get_access_token_fallback st ev1
        | .ok pair =>
          let ev2 := ev1 ++ [Event.store_write "refresh_token" pair.refresh]
          match keychain_set setFail st "refresh_token" pair.refresh with
          | .error _ => get_access_token_fallback st ev2
          | .ok st1 =>
            if pair.access ≠ "" then
              let ev3 := ev2 ++ [Event.store_write "access_token" pair.access]
              match keychain_set setFail st1 "access_token" pair.access with
              | .error _ => get_access_token_fallback st1 ev3
              | .ok st2 => ⟨some pair.access, "keychain:refresh", st2, ev3⟩
            else ⟨some pair.access, "keychain:refresh", st1, ev2⟩
    | none => get_access_token_fallback st ev0

/-- Model of Python `base_url.rstrip("/")`. -/
def rstripSlash (s : String) : String :=
  ⟨(s.data.reverse.dropWhile (fun c => c = '/')).reverse⟩

structure BootstrapRecord where
  ok : Bool
  auth_base : String
  token_url : String
  refresh_url : String
  stored_refresh : Bool
  stored_access : Bool
  set_cookie_count : Nat
  set_cookie_names : List String
  note : String
deriving DecidableEq

/-- `bootstrap_and_store`: full login, persist refresh only when non-empty
and access unconditionally; store write failures propagate (`check=True`). -/
def bootstrap_and_store (login : String → String → Option LoginResp)
    (setFail : String → String → Bool) (env : Env) (base_url : String) (st : Store) :
    Except AuthErr (BootstrapRecord × Store) :=
  let username := pyStrip env.LOCALLINE_USERNAME
  let password := pyStrip env.LOCALLINE_PASSWORD
  if username = "" ∨ password = "" then .error .missingCreds
  else
    match login username password with
    | none => .error .networkError
    | some payload =>
      let access := login_access_value payload
      let refresh := login_refresh_value payload
      if access = "" then .error .loginNoAccess
      else
        match (if refresh ≠ "" then keychain_set setFail st "refresh_token" refresh else .ok st) with
        | .error e => .error e
        | .ok st1 =>
          match keychain_set setFail st1 "access_token" access with
          | .error e => .error e
          | .ok st2 =>
            .ok (⟨true, rstripSlash base_url,
                  rstripSlash base_url ++ "/token/",
                  rstripSlash base_url ++ "/token/refresh/",
                  refresh ≠ "", true,
                  payload.set_cookies.length,
                  cookie_names payload.set_cookies,
                  "Credentials were read from env only; no plaintext persisted in repo files."⟩,
                 st2)

structure StatusRecord where
  ok : Bool
  status : String
  auth_base : String
  token_url : String
  refresh_url : String
  reason : Option String
  fix : Option String
  source : Option String
deriving DecidableEq

/-- `auth_status`: renders `get_access_token`; an empty token is falsy in
Python, so only a non-empty token yields the success record. Returns the
record together with the store as mutated by the refresh attempt. -/
def auth_status (endpoint : String → Option RefreshResp)
    (setFail : String → String → Bool) (env : Env) (base_url : String) (st : Store) :
    StatusRecord × Store :=
  let r := get_access_token endpoint setFail env st
  let failed : StatusRecord :=
    ⟨false, "AUTH_FAILED", rstripSlash base_url,
     rstripSlash base_url ++ "/token/", rstripSlash base_url ++ "/token/refresh/",
     some r.source,
     some "Run: LOCALLINE_USERNAME=... LOCALLINE_PASSWORD=... mcp-localline auth-bootstrap",
     none⟩
  match r.token with
  | none => (failed, r.store)
  | some t =>
    if t = "" then (failed, r.store)
    else
      (⟨true, "AUTH_OK", rstripSlash base_url,
        rstripSlash base_url ++ "/token/", rstripSlash base_url ++ "/token/refresh/",
        none, none, some r.source⟩, r.store)

/-! Helper lemmas about the embedding. -/

theorem keychain_get_some_ne {st : Store} {slot v : String}
    (h : keychain_get st slot = some v) : v ≠ "" := by
  simp only [keychain_get] at h
  split at h
  · exact absurd h (by simp)
  · split at h
    · exact absurd h (by simp)
    · next hne => rw [← Option.some_inj.mp h]; exact hne

theorem refresh_access_ok_access_ne {endpoint : String → Option RefreshResp}
    {r : String} {pair : TokenPair}
    (h : refresh_access endpoint r = .ok pair) : pair.access ≠ "" := by
  simp only [refresh_access] at h
  split at h
  · exact absurd h (by simp)
  · split at h
    · exact absurd h (by simp)
    · next hne =>
      cases h
      exact hne

theorem get_access_token_env_eval {endpoint : String → Option RefreshResp}
    {setFail : String → String → Bool} {env : Env} {st : Store}
    (hd : pyStrip env.LOCALLINE_API_TOKEN ≠ "") :
    get_access_token endpoint setFail env st =
      ⟨some (pyStrip env.LOCALLINE_API_TOKEN), "env:LOCALLINE_API_TOKEN", st, []⟩ := by
  simp only [get_access_token, hd, ne_eq, not_false_eq_true, if_true]

theorem get_access_token_fallback_access {st : Store} {ev : List Event} {a : String}
    (ha : keychain_get st "access_token" = some a) :
    get_access_token_fallback st ev =
      ⟨some a, "keychain:access", st, ev ++ [.store_read "access_token"]⟩ := by
  have hne := keychain_get_some_ne ha
  simp only [get_access_token_fallback, ha, hne, if_neg, if_false]

theorem get_access_token_fallback_none {st : Store} {ev : List Event}
    (hn : keychain_get st "access_token" = none) :
    get_access_token_fallback st ev =
      ⟨none, "missing_refresh_token", st, ev ++ [.store_read "access_token"]⟩ := by
  simp only [get_access_token_fallback, hn]

theorem get_access_token_no_refresh_eval {endpoint : String → Option RefreshResp}
    {setFail : String → String → Bool} {env : Env} {st : Store}
    (hd : pyStrip env.LOCALLINE_API_TOKEN = "")
    (hr : keychain_get st "refresh_token" = none) :
    get_access_token endpoint setFail env st =
      get_access_token_fallback st [.store_read "refresh_token"] := by
  simp only [get_access_token, hd, hr, ne_eq, not_true_eq_false, if_false]

theorem get_access_token_refresh_err_eval {endpoint : String → Option RefreshResp}
    {setFail : String → String → Bool} {env : Env} {st : Store} {r : String} {e : AuthErr}
    (hd : pyStrip env.LOCALLINE_API_TOKEN = "")
    (hr : keychain_get st "refresh_token" = some r)
    (herr : refresh_access endpoint r = .error e) :
    get_access_token endpoint setFail env st =
      get_access_token_fallback st [.store_read "refresh_token", .net_refresh r] := by
  have hrne := keychain_get_some_ne hr
  simp only [get_access_token, hd, hr, herr, hrne, ne_eq, not_true_eq_false, if_false,
    not_false_eq_true, if_true, List.singleton_append]

theorem get_access_token_refresh_ok_eval {endpoint : String → Option RefreshResp}
    {setFail : String → String → Bool} {env : Env} {st : Store} {r : String} {pair : TokenPair}
    (hd : pyStrip env.LOCALLINE_API_TOKEN = "")
    (hr : keychain_get st "refresh_token" = some r)
    (hok : refresh_access endpoint r = .ok pair)
    (hf1 : setFail "refresh_token" pair.refresh = false)
    (hf2 : setFail "access_token" pair.access = false) :
    get_access_token endpoint setFail env st =
      ⟨some pair.access, "keychain:refresh", ⟨some pair.refresh, some pair.access⟩,
       [.store_read "refresh_token", .net_refresh r,
        .store_write "refresh_token" pair.refresh,
        .store_write "access_token" pair.access]⟩ := by
  have hrne := keychain_get_some_ne hr
  have hane := refresh_access_ok_access_ne hok
  simp [get_access_token, keychain_set, hd, hr, hok, hf1, hf2, hrne, hane]

theorem get_access_token_refresh_set_fails_eval {endpoint : String → Option RefreshResp}
    {setFail : String → String → Bool} {env : Env} {st : Store} {r : String} {pair : TokenPair}
    (hd : pyStrip env.LOCALLINE_API_TOKEN = "")
    (hr : keychain_get st "refresh_token" = some r)
    (hok : refresh_access endpoint r = .ok pair)
    (hf1 : setFail "refresh_token" pair.refresh = true) :
    get_access_token endpoint setFail env st =
      get_access_token_fallback st
        [.store_read "refresh_token", .net_refresh r,
         .store_write "refresh_token" pair.refresh] := by
  have hrne := keychain_get_some_ne hr
  simp [get_access_token, keychain_set, hd, hr, hok, hf1, hrne]

theorem get_access_token_refresh_set2_fails_eval {endpoint : String → Option RefreshResp}
    {setFail : String → String → Bool} {env : Env} {st : Store} {r : String} {pair : TokenPair}
    (hd : pyStrip env.LOCALLINE_API_TOKEN = "")
    (hr : keychain_get st "refresh_token" = some r)
    (hok : refresh_access endpoint r = .ok pair)
    (hf1 : setFail "refresh_token" pair.refresh = false)
    (hf2 : setFail "access_token" pair.access = true) :
    get_access_token endpoint setFail env st =
      get_access_token_fallback { st with refresh_token := some pair.refresh }
        [.store_read "refresh_token", .net_refresh r,
         .store_write "refresh_token" pair.refresh,
         .store_write "access_token" pair.access] := by
  have hrne := keychain_get_some_ne hr
  have hane := refresh_access_ok_access_ne hok
  simp [get_access_token, keychain_set, hd, hr, hok, hf1, hf2, hrne, hane]

theorem get_access_token_fallback_store (st : Store) (ev : List Event) :
    (get_access_token_fallback st ev).store = st := by
  simp only [get_access_token_fallback]
  split
  · split <;> rfl
  · rfl

theorem get_access_token_fallback_events (st : Store) (ev : List Event) :
    (get_access_token_fallback st ev).events = ev ++ [Event.store_read "access_token"] := by
  simp only [get_access_token_fallback]
  split
  · split <;> rfl
  · rfl

theorem get_access_token_fallback_source_access {st : Store} {ev : List Event}
    (h : (get_access_token_fallback st ev).source = "keychain:access") :
    ∃ t, (get_access_token_fallback st ev).token = some t ∧ t ≠ "" := by
  simp only [get_access_token_fallback] at *
  split at h
  · next a heq =>
    split at h
    · simp at h
    · next hne => exact ⟨a, by simp_all, hne⟩
  · simp at h

theorem bootstrap_from_env_ok_access_ne {login : String → String → Option LoginResp}
    {env : Env} {pair : TokenPair}
    (h : bootstrap_from_env login env = .ok pair) : pair.access ≠ "" := by
  simp only [bootstrap_from_env] at h
  split at h
  · exact absurd h (by simp)
  · split at h
    · exact absurd h (by simp)
    · split at h
      · exact absurd h (by simp)
      · next hne =>
        cases h
        exact hne

theorem findRefreshItem_none {items : List (String × String)}
    (h : ∀ p ∈ items, nameMatches (pyLower p.1) = false) : findRefreshItem items = none := by
  induction items with
  | nil => rfl
  | cons p rest ih =>
    obtain ⟨n, v⟩ := p
    have hn : nameMatches (pyLower n) = false := h (n, v) (by simp)
    simp only [findRefreshItem, hn, Bool.false_and, if_false, Bool.false_eq_true]
    exact ih fun q hq => h q (by simp [hq])

/-- Whether one raw header mentions a refresh-related cookie name on either
parse path of `_extract_refresh_from_set_cookie`. -/
def headerMentionsRefresh (raw : String) : Bool :=
  (cookieLoad raw).any (fun p => nameMatches (pyLower p.1)) ||
  (match splitOnceChar '=' (trimChars (takeUntilChar ';' raw.data)) with
   | some (n0, _) => nameMatches (pyLower (pyStrip ⟨n0⟩))
   | none => false)

theorem auth_status_eval_some {endpoint : String → Option RefreshResp}
    {setFail : String → String → Bool} {env : Env} {st st' : Store}
    {base_url t src : String} {ev : List Event}
    (h : get_access_token endpoint setFail env st = ⟨some t, src, st', ev⟩)
    (ht : t ≠ "") :
    auth_status endpoint setFail env base_url st =
      (⟨true, "AUTH_OK", rstripSlash base_url, rstripSlash base_url ++ "/token/",
        rstripSlash base_url ++ "/token/refresh/", none, none, some src⟩, st') := by
  simp only [auth_status, h, ht, if_neg, if_false]

theorem auth_status_eval_none {endpoint : String → Option RefreshResp}
    {setFail : String → String → Bool} {env : Env} {st st' : Store}
    {base_url src : String} {ev : List Event}
    (h : get_access_token endpoint setFail env st = ⟨none, src, st', ev⟩) :
    auth_status endpoint setFail env base_url st =
      (⟨false, "AUTH_FAILED", rstripSlash base_url, rstripSlash base_url ++ "/token/",
        rstripSlash base_url ++ "/token/refresh/", some src,
        some "Run: LOCALLINE_USERNAME=... LOCALLINE_PASSWORD=... mcp-localline auth-bootstrap",
        none⟩, st') := by
  simp only [auth_status, h]

/-! Claim theorems. -/

/-- C1: for every stored refresh token whose refresh call fails (any error),
if a stored access token also exists, `get_access_token` returns that stored
access token with the store-access source (`"keychain:access"`) and leaves
the store unchanged; the refresh error is not propagated (the function
returns a normal result). -/
theorem get_access_token_refresh_failure_falls_back
    (endpoint : String → Option RefreshResp) (setFail : String → String → Bool)
    (env : Env) (st : Store) (r a : String) (e : AuthErr)
    (hd : pyStrip env.LOCALLINE_API_TOKEN = "")
    (hr : keychain_get st "refresh_token" = some r)
    (herr : refresh_access endpoint r = .error e)
    (ha : keychain_get st "access_token" = some a) :
    (get_access_token endpoint setFail env st).token = some a ∧
    (get_access_token endpoint setFail env st).source = "keychain:access" ∧
    (get_access_token endpoint setFail env st).store = st := by
  rw [get_access_token_refresh_err_eval hd hr herr, get_access_token_fallback_access ha]
  exact ⟨rfl, rfl, rfl⟩

/-- C1 witness: a failing endpoint with both slots populated. -/
theorem get_access_token_refresh_failure_falls_back_witness :
    (get_access_token (fun _ => none) (fun _ _ => false) ⟨"", "", ""⟩
        ⟨some "R0", some "A0"⟩).token = some "A0" ∧
    (get_access_token (fun _ => none) (fun _ _ => false) ⟨"", "", ""⟩
        ⟨some "R0", some "A0"⟩).source = "keychain:access" ∧
    (get_access_token (fun _ => none) (fun _ _ => false) ⟨"", "", ""⟩
        ⟨some "R0", some "A0"⟩).store = ⟨some "R0", some "A0"⟩ :=
  get_access_token_refresh_failure_falls_back (fun _ => none) (fun _ _ => false)
    ⟨"", "", ""⟩ ⟨some "R0", some "A0"⟩ "R0" "A0" .networkError
    (by decide) (by decide) (by decide) (by decide)

/-- C2 counterexample: a successful refresh whose response body echoes a
whitespace-only refresh token yields an empty resulting refresh token, yet
line 137 of auth.py writes it to the refresh slot unconditionally: the slot
changes from `some "R0"` to `some ""` instead of being left unwritten. -/
theorem get_access_token_writes_empty_refresh_cex :
    (get_access_token (fun _ => some ⟨some "A1", some " "⟩) (fun _ _ => false)
        ⟨"", "", ""⟩ ⟨some "R0", some "A0"⟩).source = "keychain:refresh" ∧
    (get_access_token (fun _ => some ⟨some "A1", some " "⟩) (fun _ _ => false)
        ⟨"", "", ""⟩ ⟨some "R0", some "A0"⟩).store.refresh_token = some "" := by
  decide

/-- C2 amended: on every successful refresh in step 2 (with the two store
writes accepted) the resulting access token is persisted to the access slot
and the resulting refresh token is always persisted to the refresh slot,
even when it is empty. -/
theorem get_access_token_refresh_success_persists
    (endpoint : String → Option RefreshResp) (setFail : String → String → Bool)
    (env : Env) (st : Store) (r : String) (pair : TokenPair)
    (hd : pyStrip env.LOCALLINE_API_TOKEN = "")
    (hr : keychain_get st "refresh_token" = some r)
    (hok : refresh_access endpoint r = .ok pair)
    (hf1 : setFail "refresh_token" pair.refresh = false)
    (hf2 : setFail "access_token" pair.access = false) :
    (get_access_token endpoint setFail env st).store = ⟨some pair.refresh, some pair.access⟩ ∧
    (get_access_token endpoint setFail env st).token = some pair.access ∧
    (get_access_token endpoint setFail env st).source = "keychain:refresh" := by
  rw [get_access_token_refresh_ok_eval hd hr hok hf1 hf2]
  exact ⟨rfl, rfl, rfl⟩

/-- C2 amended witness: a refresh returning a fresh pair persists both slots. -/
theorem get_access_token_refresh_success_persists_witness :
    (get_access_token (fun _ => some ⟨some "A1", some "R1"⟩) (fun _ _ => false)
        ⟨"", "", ""⟩ ⟨some "R0", none⟩).store = ⟨some "R1", some "A1"⟩ ∧
    (get_access_token (fun _ => some ⟨some "A1", some "R1"⟩) (fun _ _ => false)
        ⟨"", "", ""⟩ ⟨some "R0", none⟩).token = some "A1" ∧
    (get_access_token (fun _ => some ⟨some "A1", some "R1"⟩) (fun _ _ => false)
        ⟨"", "", ""⟩ ⟨some "R0", none⟩).source = "keychain:refresh" :=
  get_access_token_refresh_success_persists (fun _ => some ⟨some "A1", some "R1"⟩)
    (fun _ _ => false) ⟨"", "", ""⟩ ⟨some "R0", none⟩ "R0" ⟨"A1", "R1"⟩
    (by decide) (by decide) (by decide) (by decide) (by decide)

/-- C3 counterexample: the refresh call succeeds remotely, the subsequent
store write of the new refresh token fails, and `get_access_token` swallows
the store-write failure, returning the cached access token as a normal
result instead of surfacing the failure. -/
theorem get_access_token_swallows_store_write_failure_cex :
    get_access_token (fun _ => some ⟨some "A1", some "R1"⟩)
        (fun slot _ => slot == "refresh_token") ⟨"", "", ""⟩ ⟨some "R0", some "A0"⟩ =
      ⟨some "A0", "keychain:access", ⟨some "R0", some "A0"⟩,
       [.store_read "refresh_token", .net_refresh "R0",
        .store_write "refresh_token" "R1", .store_read "access_token"]⟩ := by
  decide

/-- C3 amended: a store write failure during `bootstrap_and_store` propagates
to the caller as `storeWriteFailed`, distinct from every remote error; but
inside `get_access_token`'s refresh step a store write failure is swallowed
like any other failure and resolution falls through to the cached access
token. -/
theorem store_write_failure_propagation :
    (∀ (login : String → String → Option LoginResp) (setFail : String → String → Bool)
       (env : Env) (base_url : String) (st : Store) (payload : LoginResp),
       pyStrip env.LOCALLINE_USERNAME ≠ "" → pyStrip env.LOCALLINE_PASSWORD ≠ "" →
       login (pyStrip env.LOCALLINE_USERNAME) (pyStrip env.LOCALLINE_PASSWORD) = some payload →
       login_access_value payload ≠ "" → login_refresh_value payload ≠ "" →
       setFail "refresh_token" (login_refresh_value payload) = true →
       bootstrap_and_store login setFail env base_url st = .error .storeWriteFailed) ∧
    (∀ (endpoint : String → Option RefreshResp) (setFail : String → String → Bool)
       (env : Env) (st : Store) (r a : String) (pair : TokenPair),
       pyStrip env.LOCALLINE_API_TOKEN = "" →
       keychain_get st "refresh_token" = some r →
       refresh_access endpoint r = .ok pair →
       setFail "refresh_token" pair.refresh = true →
       keychain_get st "access_token" = some a →
       (get_access_token endpoint setFail env st).token = some a ∧
       (get_access_token endpoint setFail env st).source = "keychain:access") ∧
    (AuthErr.storeWriteFailed ≠ .networkError ∧ AuthErr.storeWriteFailed ≠ .loginNoAccess ∧
     AuthErr.storeWriteFailed ≠ .refreshNoAccess) := by
  refine ⟨?_, ?_, by decide, by decide, by decide⟩
  · intro login setFail env base_url st payload hu hp hlogin hane hrne hf
    simp [bootstrap_and_store, keychain_set, hu, hp, hlogin, hane, hrne, hf]
  · intro endpoint setFail env st r a pair hd hr hok hf1 ha
    rw [get_access_token_refresh_set_fails_eval hd hr hok hf1,
        get_access_token_fallback_access ha]
    exact ⟨rfl, rfl⟩

/-- C3 amended witness: concrete store-write failures on both paths. -/
theorem store_write_failure_propagation_witness :
    bootstrap_and_store (fun _ _ => some ⟨some "A1", some "R1", []⟩)
        (fun slot _ => slot == "refresh_token") ⟨"", "u", "p"⟩ "https://x"
        ⟨none, none⟩ = .error .storeWriteFailed ∧
    (get_access_token (fun _ => some ⟨some "A1", some "R1"⟩)
        (fun slot _ => slot == "refresh_token") ⟨"", "", ""⟩
        ⟨some "R0", some "A0"⟩).source = "keychain:access" :=
  ⟨store_write_failure_propagation.1 (fun _ _ => some ⟨some "A1", some "R1", []⟩)
      (fun slot _ => slot == "refresh_token") ⟨"", "u", "p"⟩ "https://x" ⟨none, none⟩
      ⟨some "A1", some "R1", []⟩ (by decide) (by decide) (by decide) (by decide)
      (by decide) (by decide),
   (store_write_failure_propagation.2.1 (fun _ => some ⟨some "A1", some "R1"⟩)
      (fun slot _ => slot == "refresh_token") ⟨"", "", ""⟩ ⟨some "R0", some "A0"⟩
      "R0" "A0" ⟨"A1", "R1"⟩ (by decide) (by decide) (by decide) (by decide)
      (by decide)).2⟩

/-- C4: a non-blank direct-override token is returned (trimmed) with the
env-direct source, the store is unchanged, and the empty event list records
that no network call and no store read or write happened. -/
theorem get_access_token_env_direct
    (endpoint : String → Option RefreshResp) (setFail : String → String → Bool)
    (env : Env) (st : Store)
    (hd : pyStrip env.LOCALLINE_API_TOKEN ≠ "") :
    get_access_token endpoint setFail env st =
      ⟨some (pyStrip env.LOCALLINE_API_TOKEN), "env:LOCALLINE_API_TOKEN", st, []⟩ :=
  get_access_token_env_eval hd

/-- C4 witness: the override short-circuits even a hostile endpoint and a
failing store. -/
theorem get_access_token_env_direct_witness :
    get_access_token (fun _ => some ⟨some "X", some "Y"⟩) (fun _ _ => true)
        ⟨"T0", "u", "p"⟩ ⟨some "R0", some "A0"⟩ =
      ⟨some "T0", "env:LOCALLINE_API_TOKEN", ⟨some "R0", some "A0"⟩, []⟩ := by
  have h := get_access_token_env_direct (fun _ => some ⟨some "X", some "Y"⟩)
    (fun _ _ => true) ⟨"T0", "u", "p"⟩ ⟨some "R0", some "A0"⟩ (by decide)
  rw [h]
  decide

/-- C5: when the refresh response has a usable access token but echoes no new
refresh token (field absent or empty), the returned pair carries the
caller-supplied refresh token, trimmed, rather than an empty refresh. -/
theorem refresh_access_preserves_refresh
    (endpoint : String → Option RefreshResp) (r : String) (payload : RefreshResp)
    (pair : TokenPair)
    (hresp : endpoint r = some payload)
    (hnoecho : payload.refresh = none ∨ payload.refresh = some "")
    (hok : refresh_access endpoint r = .ok pair) :
    pair.refresh = pyStrip r := by
  simp only [refresh_access, hresp] at hok
  have hor : pyOr payload.refresh r = r := by
    rcases hnoecho with h | h <;> simp [pyOr, h]
  rw [hor] at hok
  split at hok
  · exact absurd hok (by simp)
  · cases hok
    rfl

/-- C5 witness: a refresh with no echoed refresh token keeps the supplied
one, trimmed. -/
theorem refresh_access_preserves_refresh_witness :
    refresh_access (fun _ => some ⟨some "A1", none⟩) " R0 " = .ok ⟨"A1", "R0"⟩ ∧
    (⟨"A1", "R0"⟩ : TokenPair).refresh = pyStrip " R0 " :=
  ⟨by decide,
   refresh_access_preserves_refresh (fun _ => some ⟨some "A1", none⟩) " R0 "
     ⟨some "A1", none⟩ ⟨"A1", "R0"⟩ (by decide) (Or.inl (by decide)) (by decide)⟩

/-- C6: the cookie refresh-token extraction satisfies the spec's vectors:
the well-formed header list yields "abc123" via strict parsing; the
malformed header (bare `Domain` attribute defeats strict parsing) is
recovered by the fallback path as "zz9"; and any header list mentioning no
refresh-related cookie name on either parse path yields the empty string,
not an error. -/
theorem extract_refresh_vectors :
    extract_refresh_from_set_cookie ["refresh_token=abc123; Path=/", "other=xyz"] = "abc123" ∧
    extract_refresh_from_set_cookie ["ll_refresh=zz9; Domain; BadAttr"] = "zz9" ∧
    ∀ hs : List String, (∀ raw ∈ hs, headerMentionsRefresh raw = false) →
      extract_refresh_from_set_cookie hs = "" := by
  refine ⟨by decide, by decide, ?_⟩
  intro hs
  induction hs with
  | nil => intro h; rfl
  | cons raw rest ih =>
    intro h
    have hraw := h raw (by simp)
    simp only [headerMentionsRefresh, Bool.or_eq_false_iff] at hraw
    obtain ⟨h1, h2⟩ := hraw
    have hfind : findRefreshItem (cookieLoad raw) = none := by
      apply findRefreshItem_none
      intro p hp
      cases hb : nameMatches (pyLower p.1)
      · rfl
      · exact absurd hb (List.any_eq_false.mp h1 p hp)
    have hrest := ih fun x hx => h x (by simp [hx])
    cases hsp : splitOnceChar '=' (trimChars (takeUntilChar ';' raw.data)) with
    | none =>
      simp only [extract_refresh_from_set_cookie, hfind, hsp]
      exact hrest
    | some nv =>
      obtain ⟨n0, v0⟩ := nv
      simp only [hsp] at h2
      simp only [extract_refresh_from_set_cookie, hfind, hsp, h2, Bool.false_and,
        if_false, Bool.false_eq_true]
      exact hrest

/-- C6 witness: a header list with no refresh-related cookie name yields "". -/
theorem extract_refresh_vectors_witness :
    extract_refresh_from_set_cookie ["sessionid=s1; Path=/", "csrftoken=t2"] = "" :=
  extract_refresh_vectors.2.2 ["sessionid=s1; Path=/", "csrftoken=t2"] (by decide)

/-- C7: every TokenPair returned by a successful login (`bootstrap_from_env`)
or refresh (`refresh_access`) has a non-empty access field, and an empty
refresh field is legal: a concrete successful login yields `⟨"A1", ""⟩`
with no error. -/
theorem token_pair_access_nonempty :
    (∀ (login : String → String → Option LoginResp) (env : Env) (pair : TokenPair),
      bootstrap_from_env login env = .ok pair → pair.access ≠ "") ∧
    (∀ (endpoint : String → Option RefreshResp) (r : String) (pair : TokenPair),
      refresh_access endpoint r = .ok pair → pair.access ≠ "") ∧
    bootstrap_from_env (fun _ _ => some ⟨some "A1", none, []⟩) ⟨"", "u", "p"⟩ =
      .ok ⟨"A1", ""⟩ :=
  ⟨fun _ _ _ h => bootstrap_from_env_ok_access_ne h,
   fun _ _ _ h => refresh_access_ok_access_ne h, by decide⟩

/-- C7 witness: a concrete successful refresh has a non-empty access field. -/
theorem token_pair_access_nonempty_witness :
    (⟨"A1", "R1"⟩ : TokenPair).access ≠ "" :=
  token_pair_access_nonempty.2.1 (fun _ => some ⟨some "A1", some "R1"⟩) "R0"
    ⟨"A1", "R1"⟩ (by decide)

/-- C8: a bootstrap whose login response carries zero refresh material (body
access "A1", no refresh field, no Set-Cookie headers) stores only the access
token, leaves the refresh slot exactly as it was, and reports
stored_refresh=false, stored_access=true, set_cookie_count=0. -/
theorem bootstrap_and_store_no_refresh_material
    (login : String → String → Option LoginResp) (setFail : String → String → Bool)
    (env : Env) (base_url : String) (st : Store)
    (hu : pyStrip env.LOCALLINE_USERNAME ≠ "")
    (hp : pyStrip env.LOCALLINE_PASSWORD ≠ "")
    (hlogin : login (pyStrip env.LOCALLINE_USERNAME) (pyStrip env.LOCALLINE_PASSWORD) =
      some ⟨some "A1", none, []⟩)
    (hf : setFail "access_token" "A1" = false) :
    bootstrap_and_store login setFail env base_url st =
      .ok (⟨true, rstripSlash base_url, rstripSlash base_url ++ "/token/",
            rstripSlash base_url ++ "/token/refresh/", false, true, 0, [],
            "Credentials were read from env only; no plaintext persisted in repo files."⟩,
           { st with access_token := some "A1" }) := by
  have ha : login_access_value ⟨some "A1", none, []⟩ = "A1" := by decide
  have hr : login_refresh_value ⟨some "A1", none, []⟩ = "" := by decide
  have hn : cookie_names ([] : List String) = [] := by decide
  simp [bootstrap_and_store, keychain_set, hu, hp, hlogin, ha, hr, hn, hf]

/-- C8 witness: concrete bootstrap with no refresh material. -/
theorem bootstrap_and_store_no_refresh_material_witness :
    bootstrap_and_store (fun _ _ => some ⟨some "A1", none, []⟩) (fun _ _ => false)
        ⟨"", "u", "p"⟩ "https://x/" ⟨some "RR", some "AA"⟩ =
      .ok (⟨true, "https://x", "https://x/token/", "https://x/token/refresh/",
            false, true, 0, [],
            "Credentials were read from env only; no plaintext persisted in repo files."⟩,
           ⟨some "RR", some "A1"⟩) := by
  have h := bootstrap_and_store_no_refresh_material (fun _ _ => some ⟨some "A1", none, []⟩)
    (fun _ _ => false) ⟨"", "u", "p"⟩ "https://x/" ⟨some "RR", some "AA"⟩
    (by decide) (by decide) (by decide) (by decide)
  rw [h]
  decide

/-- C9 counterexample: with a deterministic, always-successful refresh
endpoint that echoes a whitespace-only refresh token, the first
`auth_status` resolves via store-refresh but its own store write blanks the
refresh slot, so the second call resolves via store-access: the
CredentialSource differs between the two calls although nothing external
changed. -/
theorem auth_status_idempotence_cex :
    ((auth_status (fun _ => some ⟨some "A1", some " "⟩) (fun _ _ => false)
        ⟨"", "", ""⟩ "https://x" ⟨some "R0", some "A0"⟩).1.source =
      some "keychain:refresh") ∧
    ((auth_status (fun _ => some ⟨some "A1", some " "⟩) (fun _ _ => false)
        ⟨"", "", ""⟩ "https://x"
        ((auth_status (fun _ => some ⟨some "A1", some " "⟩) (fun _ _ => false)
            ⟨"", "", ""⟩ "https://x" ⟨some "R0", some "A0"⟩).2)).1.source =
      some "keychain:access") := by
  decide

/-- C9 amended: two successive `auth_status` calls with no intervening
change, reliable store writes, and a deterministic refresh endpoint that
always succeeds and always returns a refresh token that is non-blank after
trimming, yield the same CredentialSource (and the same failure reason). -/
theorem auth_status_idempotent
    (endpoint : String → Option RefreshResp) (setFail : String → String → Bool)
    (env : Env) (base_url : String) (st : Store)
    (hf : ∀ s v, setFail s v = false)
    (hsucc : ∀ t, ∃ pair, refresh_access endpoint t = .ok pair ∧
      pyStrip pair.refresh ≠ "") :
    ((auth_status endpoint setFail env base_url
        ((auth_status endpoint setFail env base_url st).2)).1.source =
      (auth_status endpoint setFail env base_url st).1.source) ∧
    ((auth_status endpoint setFail env base_url
        ((auth_status endpoint setFail env base_url st).2)).1.reason =
      (auth_status endpoint setFail env base_url st).1.reason) := by
  by_cases hd : pyStrip env.LOCALLINE_API_TOKEN = ""
  · cases hr : keychain_get st "refresh_token" with
    | some r =>
      obtain ⟨pair, hok, hprne⟩ := hsucc r
      have hane := refresh_access_ok_access_ne hok
      have h1 := get_access_token_refresh_ok_eval hd hr hok (hf _ _) (hf _ _)
      have hr2 : keychain_get (⟨some pair.refresh, some pair.access⟩ : Store)
          "refresh_token" = some (pyStrip pair.refresh) := by
        simp [keychain_get, hprne]
      obtain ⟨pair2, hok2, hprne2⟩ := hsucc (pyStrip pair.refresh)
      have hane2 := refresh_access_ok_access_ne hok2
      have h2 := get_access_token_refresh_ok_eval hd hr2 hok2 (hf _ _) (hf _ _)
      constructor <;>
        simp [auth_status_eval_some h1 hane, auth_status_eval_some h2 hane2]
    | none =>
      have h0 := @get_access_token_no_refresh_eval endpoint setFail env st hd hr
      cases ha : keychain_get st "access_token" with
      | some a =>
        have hane := keychain_get_some_ne ha
        have h1 : get_access_token endpoint setFail env st =
            ⟨some a, "keychain:access", st,
             [Event.store_read "refresh_token", Event.store_read "access_token"]⟩ := by
          rw [h0, get_access_token_fallback_access ha]
          rfl
        constructor <;> simp [auth_status_eval_some h1 hane]
      | none =>
        have h1 : get_access_token endpoint setFail env st =
            ⟨none, "missing_refresh_token", st,
             [Event.store_read "refresh_token", Event.store_read "access_token"]⟩ := by
          rw [h0, get_access_token_fallback_none ha]
          rfl
        constructor <;> simp [auth_status_eval_none h1]
  · have h1 := @get_access_token_env_eval endpoint setFail env st hd
    constructor <;> simp [auth_status_eval_some h1 hd]

/-- C9 amended witness: a deterministic endpoint echoing a proper refresh
token gives the same source on both calls. -/
theorem auth_status_idempotent_witness :
    ((auth_status (fun _ => some ⟨some "A1", some "R1"⟩) (fun _ _ => false)
        ⟨"", "", ""⟩ "https://x"
        ((auth_status (fun _ => some ⟨some "A1", some "R1"⟩) (fun _ _ => false)
            ⟨"", "", ""⟩ "https://x" ⟨some "R0", some "A0"⟩).2)).1.source =
      (auth_status (fun _ => some ⟨some "A1", some "R1"⟩) (fun _ _ => false)
        ⟨"", "", ""⟩ "https://x" ⟨some "R0", some "A0"⟩).1.source) ∧
    ((auth_status (fun _ => some ⟨some "A1", some "R1"⟩) (fun _ _ => false)
        ⟨"", "", ""⟩ "https://x"
        ((auth_status (fun _ => some ⟨some "A1", some "R1"⟩) (fun _ _ => false)
            ⟨"", "", ""⟩ "https://x" ⟨some "R0", some "A0"⟩).2)).1.reason =
      (auth_status (fun _ => some ⟨some "A1", some "R1"⟩) (fun _ _ => false)
        ⟨"", "", ""⟩ "https://x" ⟨some "R0", some "A0"⟩).1.reason) :=
  auth_status_idempotent (fun _ => some ⟨some "A1", some "R1"⟩) (fun _ _ => false)
    ⟨"", "", ""⟩ "https://x" ⟨some "R0", some "A0"⟩ (fun _ _ => rfl)
    (fun t => ⟨⟨"A1", "R1"⟩, by simp [refresh_access, pyOr]; decide, by decide⟩)

/-- Branch shape of `get_access_token`: the env path, a fall-through to
`get_access_token_fallback` whose event prefix only mentions non-blank
refresh tokens, or the full refresh-success path. -/
theorem get_access_token_shape (endpoint : String → Option RefreshResp)
    (setFail : String → String → Bool) (env : Env) (st : Store) :
    (get_access_token endpoint setFail env st =
        ⟨some (pyStrip env.LOCALLINE_API_TOKEN), "env:LOCALLINE_API_TOKEN", st, []⟩) ∨
    (∃ st0 ev, get_access_token endpoint setFail env st = get_access_token_fallback st0 ev ∧
        ∀ t, Event.net_refresh t ∈ ev → t ≠ "") ∨
    (∃ r pair, keychain_get st "refresh_token" = some r ∧
        refresh_access endpoint r = .ok pair ∧
        get_access_token endpoint setFail env st =
          ⟨some pair.access, "keychain:refresh", ⟨some pair.refresh, some pair.access⟩,
           [.store_read "refresh_token", .net_refresh r,
            .store_write "refresh_token" pair.refresh,
            .store_write "access_token" pair.access]⟩) := by
  by_cases hd : pyStrip env.LOCALLINE_API_TOKEN = ""
  · cases hr : keychain_get st "refresh_token" with
    | none =>
      refine Or.inr (Or.inl ⟨st, _,
        @get_access_token_no_refresh_eval endpoint setFail env st hd hr, ?_⟩)
      intro t ht
      simp at ht
    | some r =>
      have hrne := keychain_get_some_ne hr
      cases hacc : refresh_access endpoint r with
      | error e =>
        refine Or.inr (Or.inl ⟨st, _,
          get_access_token_refresh_err_eval hd hr hacc, ?_⟩)
        intro t ht
        simp at ht
        subst ht
        exact hrne
      | ok pair =>
        cases hf1 : setFail "refresh_token" pair.refresh with
        | true =>
          refine Or.inr (Or.inl ⟨st, _,
            get_access_token_refresh_set_fails_eval hd hr hacc hf1, ?_⟩)
          intro t ht
          simp at ht
          subst ht
          exact hrne
        | false =>
          cases hf2 : setFail "access_token" pair.access with
          | true =>
            refine Or.inr (Or.inl ⟨_, _,
              get_access_token_refresh_set2_fails_eval hd hr hacc hf1 hf2, ?_⟩)
            intro t ht
            simp at ht
            subst ht
            exact hrne
          | false =>
            exact Or.inr (Or.inr ⟨r, pair, rfl, hacc,
              get_access_token_refresh_ok_eval hd hr hacc hf1 hf2⟩)
  · exact Or.inl (@get_access_token_env_eval endpoint setFail env st hd)

/-- C10: a stored value that is blank after trimming is reported as absent
by the credential-store adapter, exactly as a missing slot; consequently
`get_access_token` never performs a refresh call with a blank token taken
from the store and never returns a blank store-access credential. -/
theorem keychain_blank_reported_absent :
    (∀ (st : Store) (raw : String), pyStrip raw = "" →
      keychain_get { st with refresh_token := some raw } "refresh_token" = none ∧
      keychain_get { st with access_token := some raw } "access_token" = none) ∧
    (∀ (endpoint : String → Option RefreshResp) (setFail : String → String → Bool)
       (env : Env) (st : Store) (t : String),
       Event.net_refresh t ∈ (get_access_token endpoint setFail env st).events → t ≠ "") ∧
    (∀ (endpoint : String → Option RefreshResp) (setFail : String → String → Bool)
       (env : Env) (st : Store),
       (get_access_token endpoint setFail env st).source = "keychain:access" →
       ∃ t, (get_access_token endpoint setFail env st).token = some t ∧ t ≠ "") := by
  refine ⟨?_, ?_, ?_⟩
  · intro st raw h
    constructor <;> simp [keychain_get, h]
  · intro endpoint setFail env st t ht
    rcases get_access_token_shape endpoint setFail env st with
      h | ⟨st0, ev, h, hev⟩ | ⟨r, pair, hr, hok, h⟩
    · rw [h] at ht
      simp at ht
    · rw [h, get_access_token_fallback_events] at ht
      simp only [List.mem_append, List.mem_singleton] at ht
      rcases ht with ht | ht
      · exact hev t ht
      · simp at ht
    · rw [h] at ht
      simp at ht
      subst ht
      exact keychain_get_some_ne hr
  · intro endpoint setFail env st hsrc
    rcases get_access_token_shape endpoint setFail env st with
      h | ⟨st0, ev, h, _⟩ | ⟨r, pair, hr, hok, h⟩
    · rw [h] at hsrc
      simp at hsrc
    · rw [h] at hsrc ⊢
      exact get_access_token_fallback_source_access hsrc
    · rw [h] at hsrc
      simp at hsrc

/-- C10 witness: a whitespace-only stored refresh token reads back as
absent. -/
theorem keychain_blank_reported_absent_witness :
    keychain_get ⟨some "  ", some "A0"⟩ "refresh_token" = none :=
  (keychain_blank_reported_absent.1 ⟨none, some "A0"⟩ "  " (by decide)).1

end LL
